import Mathlib

/-!
Shallow embedding of the attendance-system core (streamlit_app.py): the
SQLite-backed students and attendance tables, the registration submit
handler, the QR-scanner check-in handler, the report aggregation of the
attendance-reports page and the per-student statistics of the all-students
page, together with theorems settling the specification claims.

Timestamps are passed explicitly: everywhere the code reads
datetime.now(), the embedding takes the date string, the time string and
the hour as arguments.  The random barcode drawn from uuid4 in
generate_unique_barcode is likewise an explicit argument of the
registration operation.
-/

namespace AttendanceSystem

/-- The three status values.  determine_attendance_status returns exactly
the strings "present", "late" and "absent", so the embedding closes them
into an inductive type. -/
inductive Status where
  | present
  | late
  | absent
deriving DecidableEq, Repr

/-- One row of the students table:
students(id PK autoincrement, name, reg_no UNIQUE, department,
parent_phone, barcode UNIQUE, created_at). -/
structure Student where
  id : Nat
  name : String
  reg_no : String
  department : String
  parent_phone : String
  barcode : String
  created_at : String
deriving DecidableEq, Repr

/-- One row of the attendance table:
attendance(id PK autoincrement, student_id FK to students.id, date, time,
status, created_at). -/
structure AttendanceRecord where
  id : Nat
  student_id : Nat
  date : String
  time : String
  status : Status
  created_at : String
deriving DecidableEq, Repr

/-- The SQLite database state: the two tables (in insertion order) plus the
autoincrement counters of their PRIMARY KEY columns. -/
structure DB where
  students : List Student
  attendance : List AttendanceRecord
  next_student_id : Nat
  next_attendance_id : Nat
deriving DecidableEq, Repr

/-- State produced by init_database: both tables empty, autoincrement
counters at 1 (SQLite assigns 1 to the first inserted row). -/
def init_database : DB :=
  { students := [], attendance := [], next_student_id := 1,
    next_attendance_id := 1 }

/-- A wall-clock instant as the handlers read it: the date formatted
YYYY-MM-DD, the time formatted HH:MM:SS, and the hour component used by
determine_attendance_status. -/
structure Timestamp where
  date : String
  time : String
  hour : Nat
deriving DecidableEq, Repr

/-- The fixed department list offered by the registration-form selectbox
and by the report filter. -/
def departments : List String :=
  ["Computer Science and Engineering",
   "Electronics and Communication Engineering",
   "Mechanical Engineering",
   "Civil Engineering",
   "Electrical and Electronics Engineering",
   "Information Technology"]

/-- determine_attendance_status: classifies by the hour read from the
clock (hour at most 9 gives present, hour at most 10 gives late, any later
hour gives absent); minutes and seconds are never inspected.  Returns the
status together with the emoji shown in the UI. -/
def determine_attendance_status (current_hour : Nat) : Status × String :=
  if current_hour ≤ 9 then (Status.present, "g")
  else if current_hour ≤ 10 then (Status.late, "y")
  else (Status.absent, "r")

/-- Outcome displayed by the registration handler: the success box, the
incomplete-information validation box, the duplicate-registration-number
error box, or the generic database-error message shown for any other
sqlite3.IntegrityError (in particular a barcode collision, whose message
names students.barcode, not reg_no). -/
inductive RegisterResult where
  | success (s : Student)
  | validationError
  | duplicateRegNo
  | databaseError
deriving DecidableEq, Repr

/-- register_student submit handler.  The four fields must be non-empty
(Python truthiness of the form inputs); the barcode produced by
generate_unique_barcode is an explicit argument here.  The INSERT aborts
with an IntegrityError when the UNIQUE constraint on reg_no or on barcode
is violated; the except branch reports duplicateRegNo when the error
message contains reg_no (SQLite names the violated column, and reg_no is
checked before barcode in column order), otherwise the generic database
error.  On any failure no row is committed. -/
def register_student (db : DB) (name reg_no department parent_phone : String)
    (barcode : String) : RegisterResult × DB :=
  if name ≠ "" ∧ reg_no ≠ "" ∧ department ≠ "" ∧ parent_phone ≠ "" then
    if db.students.any (fun s => s.reg_no == reg_no) then
      (RegisterResult.duplicateRegNo, db)
    else if db.students.any (fun s => s.barcode == barcode) then
      (RegisterResult.databaseError, db)
    else
      let s : Student :=
        { id := db.next_student_id, name := name, reg_no := reg_no,
          department := department, parent_phone := parent_phone,
          barcode := barcode, created_at := "" }
      (RegisterResult.success s,
       { db with students := db.students ++ [s],
                 next_student_id := db.next_student_id + 1 })
  else
    (RegisterResult.validationError, db)

/-- Outcome displayed by the QR-scanner handler: the success box carrying
the new record, the already-marked warning carrying the time (column 3)
and status (column 4) of the existing row, or the invalid-QR-code error. -/
inductive CheckinResult where
  | recorded (r : AttendanceRecord)
  | alreadyRecorded (time : String) (status : Status)
  | unknownIdentifier
deriving DecidableEq, Repr

/-- Model of the Python str.strip() builtin: drop leading and trailing
whitespace characters. -/
def strip (s : String) : String :=
  String.mk
    (((s.data.dropWhile Char.isWhitespace).reverse.dropWhile
        Char.isWhitespace).reverse)

/-- Roster lookup performed by the scanner: SELECT star FROM students WHERE
barcode matches the scanned code with leading and trailing whitespace
stripped (scanned_code.strip()); fetchone returns the first matching row. -/
def lookup_by_barcode (db : DB) (scanned_code : String) : Option Student :=
  db.students.find? (fun s => s.barcode == strip scanned_code)

/-- qr_scanner mark-attendance handler: resolve the stripped code against
the roster; if no student matches, report the invalid code and write
nothing; if an attendance row for (student, today) already exists, report
its time and status and write nothing; otherwise classify the status from
the current hour and insert the new attendance row. -/
def record_checkin (db : DB) (scanned_code : String) (now : Timestamp) :
    CheckinResult × DB :=
  match lookup_by_barcode db scanned_code with
  | none => (CheckinResult.unknownIdentifier, db)
  | some s =>
    match db.attendance.find?
        (fun r => r.student_id == s.id && r.date == now.date) with
    | some existing =>
      (CheckinResult.alreadyRecorded existing.time existing.status, db)
    | none =>
      let status := (determine_attendance_status now.hour).1
      let r : AttendanceRecord :=
        { id := db.next_attendance_id, student_id := s.id, date := now.date,
          time := now.time, status := status, created_at := "" }
      (CheckinResult.recorded r,
       { db with attendance := db.attendance ++ [r],
                 next_attendance_id := db.next_attendance_id + 1 })

/-- The inner join of the report query:
FROM attendance a JOIN students s ON a.student_id = s.id. -/
def joined_rows (db : DB) : List (Student × AttendanceRecord) :=
  db.attendance.flatMap (fun a =>
    (db.students.filter (fun s => s.id == a.student_id)).map (fun s => (s, a)))

/-- Rows selected by the attendance_reports query: the join restricted to
dates BETWEEN start AND end (inclusive comparison of YYYY-MM-DD strings)
and, when a department filter is chosen, to students of that department.
The ORDER BY clause only affects display order and is omitted: every
consumer of these rows in the report counts or re-sorts them. -/
def report_rows (db : DB) (start_date end_date : String)
    (department_filter : Option String) :
    List (Student × AttendanceRecord) :=
  (joined_rows db).filter (fun p =>
    decide (start_date ≤ p.2.date) && decide (p.2.date ≤ end_date) &&
    (match department_filter with
     | none => true
     | some d => p.1.department == d))

/-- Summary-statistics block of the report page. -/
structure Summary where
  total_records : Nat
  present_count : Nat
  late_count : Nat
  absent_count : Nat
deriving DecidableEq, Repr

/-- Summary statistics computed over the report rows: the total row count
and the sizes of the three status subsets. -/
def summary (db : DB) (start_date end_date : String)
    (department_filter : Option String) : Summary :=
  let rows := report_rows db start_date end_date department_filter
  { total_records := rows.length,
    present_count :=
      (rows.filter (fun p => p.2.status == Status.present)).length,
    late_count := (rows.filter (fun p => p.2.status == Status.late)).length,
    absent_count :=
      (rows.filter (fun p => p.2.status == Status.absent)).length }

/-- One row of the all-students statistics. -/
structure StudentStats where
  student : Student
  total_attendance : Nat
  present_count : Nat
  late_count : Nat
  absent_count : Nat
  attendance_rate : ℚ
deriving DecidableEq, Repr

/-- Stats row for one student, as produced by the all_students
LEFT JOIN / GROUP BY s.id query (s.id is the primary key, so one group per
student; a student with no attendance rows keeps count 0) together with the
attendance_rate column: (present + late) divided by the total with a 0
total replaced by 1 in the denominator only, times 100. -/
def statsFor (db : DB) (s : Student) : StudentStats :=
  let recs := db.attendance.filter (fun a => a.student_id == s.id)
  let total := recs.length
  let p := (recs.filter (fun a => a.status == Status.present)).length
  let l := (recs.filter (fun a => a.status == Status.late)).length
  let ab := (recs.filter (fun a => a.status == Status.absent)).length
  { student := s, total_attendance := total, present_count := p,
    late_count := l, absent_count := ab,
    attendance_rate :=
      ((p : ℚ) + (l : ℚ)) / (if total = 0 then 1 else (total : ℚ)) * 100 }

/-- all_students page: one stats row per registered student, ORDER BY
s.name. -/
def all_students (db : DB) : List StudentStats :=
  (db.students.mergeSort (fun a b => a.name ≤ b.name)).map (statsFor db)

/-- Attendance rate displayed in a student expander: the computed rate
when the student has records, otherwise 0 (line 663 recomputes the guard
even though the rate column is already 0 there). -/
def displayed_rate (st : StudentStats) : ℚ :=
  if st.total_attendance > 0 then st.attendance_rate else 0

/-- The two store-mutating operations reachable from the UI: a
registration submission and a scanner check-in. -/
inductive Op where
  | register (name reg_no department parent_phone barcode : String)
  | checkin (scanned_code : String) (now : Timestamp)

/-- Apply one operation to the database, discarding the displayed result. -/
def applyOp (db : DB) : Op → DB
  | Op.register n r d p b => (register_student db n r d p b).2
  | Op.checkin c t => (record_checkin db c t).2

/-- Run a sequence of operations from the freshly initialized database. -/
def runOps (ops : List Op) : DB :=
  ops.foldl applyOp init_database

/-- The daily-uniqueness invariant: no two rows of the attendance table
share a (student_id, date) pair. -/
def UniquePerDay (db : DB) : Prop :=
  db.attendance.Pairwise
    (fun a b => ¬(a.student_id = b.student_id ∧ a.date = b.date))

/-- Example roster: the freshly initialized store after one successful
registration. -/
def dbA : DB :=
  (register_student init_database "A" "CS001"
    "Computer Science and Engineering" "+1" "AB12CD34").2

/-- The row inserted by the registration that builds dbA. -/
def studentA : Student :=
  ⟨1, "A", "CS001", "Computer Science and Engineering", "+1", "AB12CD34", ""⟩

/-- C3: status classification is a pure function of the hour component of
the check-in time: hour at most 9 is present, hour strictly between 9 and
10 inclusive is late, hour above 10 is absent; minutes and seconds are
never read by determine_attendance_status. -/
theorem status_classification_by_hour (h : Nat) :
    (h ≤ 9 → (determine_attendance_status h).1 = Status.present) ∧
    (9 < h → h ≤ 10 → (determine_attendance_status h).1 = Status.late) ∧
    (10 < h → (determine_attendance_status h).1 = Status.absent) := by
  unfold determine_attendance_status
  refine ⟨fun h9 => ?_, fun h9 h10 => ?_, fun h10 => ?_⟩
  · rw [if_pos h9]
  · rw [if_neg (by omega), if_pos h10]
  · rw [if_neg (by omega), if_neg (by omega)]

/-- C3 witness: the boundary hours 9, 10, 11 and 0 classify as present,
late, absent and present. -/
theorem status_classification_by_hour_witness :
    (determine_attendance_status 9).1 = Status.present ∧
    (determine_attendance_status 10).1 = Status.late ∧
    (determine_attendance_status 11).1 = Status.absent ∧
    (determine_attendance_status 0).1 = Status.present :=
  ⟨(status_classification_by_hour 9).1 (by decide),
   (status_classification_by_hour 10).2.1 (by decide) (by decide),
   (status_classification_by_hour 11).2.2 (by decide),
   (status_classification_by_hour 0).1 (by decide)⟩

/-- C5: a scanned identifier that resolves to no registered student makes
the scanner report the invalid-code outcome and leaves the store, in
particular the attendance table, unchanged. -/
theorem unknown_identifier_writes_nothing (db : DB) (code : String)
    (t : Timestamp) (h : lookup_by_barcode db code = none) :
    (record_checkin db code t).1 = CheckinResult.unknownIdentifier ∧
    (record_checkin db code t).2 = db := by
  unfold record_checkin
  rw [h]
  exact ⟨rfl, rfl⟩

/-- C5 witness: scanning the literal UNKNOWN against the empty roster. -/
theorem unknown_identifier_writes_nothing_witness :
    (record_checkin init_database "UNKNOWN" ⟨"2024-03-01", "08:30:00", 8⟩).1 =
      CheckinResult.unknownIdentifier ∧
    (record_checkin init_database "UNKNOWN" ⟨"2024-03-01", "08:30:00", 8⟩).2 =
      init_database :=
  unknown_identifier_writes_nothing init_database "UNKNOWN"
    ⟨"2024-03-01", "08:30:00", 8⟩ (by decide)

/-- C10: the scanner strips the scanned token before the roster lookup, so
two scans whose stripped forms agree behave identically; in particular a
barcode surrounded by whitespace resolves to the same student as the bare
barcode. -/
theorem checkin_strips_whitespace (db : DB) (t : Timestamp) (c1 c2 : String)
    (h : strip c1 = strip c2) :
    record_checkin db c1 t = record_checkin db c2 t := by
  unfold record_checkin lookup_by_barcode
  rw [h]

/-- C10 witness: the registered barcode surrounded by spaces and a newline
checks in exactly like the bare barcode, and resolves to the student. -/
theorem checkin_strips_whitespace_witness :
    record_checkin dbA "  AB12CD34 \n" ⟨"2024-03-01", "08:30:00", 8⟩ =
      record_checkin dbA "AB12CD34" ⟨"2024-03-01", "08:30:00", 8⟩ ∧
    (record_checkin dbA "AB12CD34" ⟨"2024-03-01", "08:30:00", 8⟩).1 =
      CheckinResult.recorded
        ⟨1, 1, "2024-03-01", "08:30:00", Status.present, ""⟩ :=
  ⟨checkin_strips_whitespace dbA ⟨"2024-03-01", "08:30:00", 8⟩
      "  AB12CD34 \n" "AB12CD34" (by decide),
   by decide⟩

/-- Registration never touches the attendance table. -/
theorem register_student_attendance (db : DB) (n r d p b : String) :
    ((register_student db n r d p b).2).attendance = db.attendance := by
  unfold register_student
  split
  · split
    · rfl
    · split <;> rfl
  · rfl

/-- The attendance table after a check-in: either unchanged, or extended by
one fresh row for a (student, date) pair that had no row before. -/
theorem record_checkin_attendance_cases (db : DB) (c : String)
    (t : Timestamp) :
    ((record_checkin db c t).2).attendance = db.attendance ∨
    ∃ s : Student,
      db.attendance.find?
        (fun r => r.student_id == s.id && r.date == t.date) = none ∧
      ((record_checkin db c t).2).attendance =
        db.attendance ++
          [⟨db.next_attendance_id, s.id, t.date, t.time,
            (determine_attendance_status t.hour).1, ""⟩] := by
  unfold record_checkin
  cases hl : lookup_by_barcode db c with
  | none => exact Or.inl rfl
  | some s =>
    dsimp only
    cases hf : db.attendance.find?
        (fun r => r.student_id == s.id && r.date == t.date) with
    | some e => exact Or.inl rfl
    | none => exact Or.inr ⟨s, hf, rfl⟩

/-- A check-in preserves the daily-uniqueness invariant: the insert is
guarded by the existence check on the same (student, date) pair. -/
theorem uniquePerDay_checkin {db : DB} (hdb : UniquePerDay db) (c : String)
    (t : Timestamp) : UniquePerDay ((record_checkin db c t).2) := by
  rcases record_checkin_attendance_cases db c t with h | ⟨s, hf, h⟩
  · unfold UniquePerDay
    rw [h]
    exact hdb
  · unfold UniquePerDay at hdb ⊢
    rw [h, List.pairwise_append]
    refine ⟨hdb, List.pairwise_singleton _ _, ?_⟩
    intro a ha b hb
    rw [List.mem_singleton] at hb
    subst hb
    have hne := List.find?_eq_none.mp hf a ha
    simp only [Bool.and_eq_true, beq_iff_eq] at hne
    intro hcon
    exact hne ⟨hcon.1, hcon.2⟩

/-- C1: in every store state reachable from the fresh database by any
sequence of registrations and check-ins, at most one attendance row exists
per (student_id, date) pair; repeated submissions for the same student on
the same day never create a second row. -/
theorem at_most_one_record_per_student_per_day (ops : List Op) :
    UniquePerDay (runOps ops) := by
  have step : ∀ (l : List Op) (db : DB),
      UniquePerDay db → UniquePerDay (l.foldl applyOp db) := by
    intro l
    induction l with
    | nil => exact fun db h => h
    | cons op rest ih =>
      intro db h
      refine ih _ ?_
      cases op with
      | register n r d p b =>
        show UniquePerDay (register_student db n r d p b).2
        unfold UniquePerDay
        rw [register_student_attendance]
        exact h
      | checkin c t => exact uniquePerDay_checkin h c t
  exact step ops init_database List.Pairwise.nil

/-- Shape of a check-in that hits an existing row: the prior record is
reported with its time and status, and the store is untouched. -/
theorem record_checkin_already (db : DB) (code : String) (t : Timestamp)
    (s : Student) (e : AttendanceRecord)
    (hlook : lookup_by_barcode db code = some s)
    (hf : db.attendance.find?
        (fun r => r.student_id == s.id && r.date == t.date) = some e) :
    record_checkin db code t =
      (CheckinResult.alreadyRecorded e.time e.status, db) := by
  unfold record_checkin
  rw [hlook]
  dsimp only
  rw [hf]

/-- Shape of a first check-in of the day: the new row is built from the
autoincrement id, the student id, the date, the time and the classified
status, and is appended to the attendance table. -/
theorem record_checkin_fresh (db : DB) (code : String) (t : Timestamp)
    (s : Student) (hlook : lookup_by_barcode db code = some s)
    (hnone : db.attendance.find?
        (fun r => r.student_id == s.id && r.date == t.date) = none) :
    record_checkin db code t =
      (CheckinResult.recorded
        ⟨db.next_attendance_id, s.id, t.date, t.time,
         (determine_attendance_status t.hour).1, ""⟩,
       { db with
           attendance := db.attendance ++
             [⟨db.next_attendance_id, s.id, t.date, t.time,
               (determine_attendance_status t.hour).1, ""⟩],
           next_attendance_id := db.next_attendance_id + 1 }) := by
  unfold record_checkin
  rw [hlook]
  dsimp only
  rw [hnone]

/-- C2: the recorder is idempotent per (student, date).  For a code that
resolves to a student with no attendance row on the date yet, the first
call returns the Recorded outcome carrying the freshly inserted row, a
second call on the same date returns the AlreadyRecorded outcome carrying
the existing row's time and status, performs no write, and exactly one
attendance row for the (student, date) pair exists afterwards. -/
theorem record_checkin_idempotent (db : DB) (s : Student) (code : String)
    (t t2 : Timestamp)
    (hlook : lookup_by_barcode db code = some s)
    (hnone : db.attendance.find?
        (fun r => r.student_id == s.id && r.date == t.date) = none)
    (hdate : t2.date = t.date) :
    (record_checkin db code t).1 =
      CheckinResult.recorded
        ⟨db.next_attendance_id, s.id, t.date, t.time,
         (determine_attendance_status t.hour).1, ""⟩ ∧
    (record_checkin ((record_checkin db code t).2) code t2).1 =
      CheckinResult.alreadyRecorded t.time
        (determine_attendance_status t.hour).1 ∧
    (record_checkin ((record_checkin db code t).2) code t2).2 =
      (record_checkin db code t).2 ∧
    (((record_checkin db code t).2).attendance.filter
        (fun r => r.student_id == s.id && r.date == t.date)).length = 1 := by
  have h1 := record_checkin_fresh db code t s hlook hnone
  have hlook2 : lookup_by_barcode ((record_checkin db code t).2) code =
      some s := by
    rw [h1]
    exact hlook
  have hfind2 : ((record_checkin db code t).2).attendance.find?
      (fun r => r.student_id == s.id && r.date == t2.date) =
      some ⟨db.next_attendance_id, s.id, t.date, t.time,
            (determine_attendance_status t.hour).1, ""⟩ := by
    rw [h1]
    dsimp only
    rw [hdate, List.find?_append, hnone]
    simp
  have h2 := record_checkin_already ((record_checkin db code t).2) code t2 s
    ⟨db.next_attendance_id, s.id, t.date, t.time,
     (determine_attendance_status t.hour).1, ""⟩ hlook2 hfind2
  have hfilter : (((record_checkin db code t).2).attendance.filter
      (fun r => r.student_id == s.id && r.date == t.date)).length = 1 := by
    rw [h1]
    dsimp only
    rw [List.filter_append]
    have hnil : db.attendance.filter
        (fun r => r.student_id == s.id && r.date == t.date) = [] := by
      rw [List.filter_eq_nil_iff]
      exact List.find?_eq_none.mp hnone
    rw [hnil]
    simp
  exact ⟨by rw [h1], by rw [h2], by rw [h2], hfilter⟩

/-- C2 witness: the spec scenario, registering one student and checking in
twice on 2024-03-01 at 08:30 and 09:15. -/
theorem record_checkin_idempotent_witness :
    (record_checkin dbA "AB12CD34" ⟨"2024-03-01", "08:30:00", 8⟩).1 =
      CheckinResult.recorded
        ⟨1, 1, "2024-03-01", "08:30:00", Status.present, ""⟩ ∧
    (record_checkin
        ((record_checkin dbA "AB12CD34" ⟨"2024-03-01", "08:30:00", 8⟩).2)
        "AB12CD34" ⟨"2024-03-01", "09:15:00", 9⟩).1 =
      CheckinResult.alreadyRecorded "08:30:00" Status.present ∧
    (record_checkin
        ((record_checkin dbA "AB12CD34" ⟨"2024-03-01", "08:30:00", 8⟩).2)
        "AB12CD34" ⟨"2024-03-01", "09:15:00", 9⟩).2 =
      (record_checkin dbA "AB12CD34" ⟨"2024-03-01", "08:30:00", 8⟩).2 ∧
    ((((record_checkin dbA "AB12CD34" ⟨"2024-03-01", "08:30:00", 8⟩).2)).attendance.filter
        (fun r => r.student_id == studentA.id && r.date == "2024-03-01")).length = 1 := by
  have h := record_checkin_idempotent dbA studentA "AB12CD34"
    ⟨"2024-03-01", "08:30:00", 8⟩ ⟨"2024-03-01", "09:15:00", 9⟩
    (by decide) (by decide) rfl
  exact ⟨h.1, h.2.1, h.2.2.1, h.2.2.2⟩

/-- Shape of a valid registration with fresh keys: the new student row is
built from the autoincrement id and the inputs and appended. -/
theorem register_student_fresh (db : DB) (n r d p b : String)
    (hv : n ≠ "" ∧ r ≠ "" ∧ d ≠ "" ∧ p ≠ "")
    (hr : db.students.any (fun s => s.reg_no == r) = false)
    (hb : db.students.any (fun s => s.barcode == b) = false) :
    register_student db n r d p b =
      (RegisterResult.success ⟨db.next_student_id, n, r, d, p, b, ""⟩,
       { db with
           students := db.students ++
             [⟨db.next_student_id, n, r, d, p, b, ""⟩],
           next_student_id := db.next_student_id + 1 }) := by
  unfold register_student
  rw [if_pos hv, if_neg (by rw [hr]; exact Bool.false_ne_true),
      if_neg (by rw [hb]; exact Bool.false_ne_true)]

/-- Shape of a registration whose registration number already exists: the
duplicate-key outcome, nothing written. -/
theorem register_student_dup_reg_no (db : DB) (n r d p b : String)
    (hv : n ≠ "" ∧ r ≠ "" ∧ d ≠ "" ∧ p ≠ "")
    (hr : db.students.any (fun s => s.reg_no == r) = true) :
    register_student db n r d p b = (RegisterResult.duplicateRegNo, db) := by
  unfold register_student
  rw [if_pos hv, if_pos hr]

/-- Shape of a registration whose barcode already exists while the
registration number is fresh: the generic database error, nothing
written. -/
theorem register_student_barcode_dup (db : DB) (n r d p b : String)
    (hv : n ≠ "" ∧ r ≠ "" ∧ d ≠ "" ∧ p ≠ "")
    (hr : db.students.any (fun s => s.reg_no == r) = false)
    (hb : db.students.any (fun s => s.barcode == b) = true) :
    register_student db n r d p b = (RegisterResult.databaseError, db) := by
  unfold register_student
  rw [if_pos hv, if_neg (by rw [hr]; exact Bool.false_ne_true), if_pos hb]

/-- Shape of a registration with a missing field: the validation outcome,
nothing written. -/
theorem register_student_invalid (db : DB) (n r d p b : String)
    (h : ¬(n ≠ "" ∧ r ≠ "" ∧ d ≠ "" ∧ p ≠ "")) :
    register_student db n r d p b = (RegisterResult.validationError, db) := by
  unfold register_student
  rw [if_neg h]

/-- A valid registration produces one of the three non-validation
outcomes. -/
theorem register_result_of_valid (db : DB) (n r d p b : String)
    (h : n ≠ "" ∧ r ≠ "" ∧ d ≠ "" ∧ p ≠ "") :
    (register_student db n r d p b).1 = RegisterResult.duplicateRegNo ∨
    (register_student db n r d p b).1 = RegisterResult.databaseError ∨
    (register_student db n r d p b).1 =
      RegisterResult.success ⟨db.next_student_id, n, r, d, p, b, ""⟩ := by
  unfold register_student
  rw [if_pos h]
  split
  · exact Or.inl rfl
  · split
    · exact Or.inr (Or.inl rfl)
    · exact Or.inr (Or.inr rfl)

/-- C6: registering two students with the same registration number
succeeds for the first (appending exactly its row) and fails for the
second with the duplicate-key outcome, leaving the store exactly as the
first registration left it: no partial row. -/
theorem duplicate_reg_no_second_rejected (db : DB)
    (n1 r1 d1 p1 b1 n2 d2 p2 b2 : String)
    (hv1 : n1 ≠ "" ∧ r1 ≠ "" ∧ d1 ≠ "" ∧ p1 ≠ "")
    (hv2 : n2 ≠ "" ∧ d2 ≠ "" ∧ p2 ≠ "")
    (hr : db.students.any (fun s => s.reg_no == r1) = false)
    (hb : db.students.any (fun s => s.barcode == b1) = false) :
    (register_student db n1 r1 d1 p1 b1).1 =
      RegisterResult.success ⟨db.next_student_id, n1, r1, d1, p1, b1, ""⟩ ∧
    ((register_student db n1 r1 d1 p1 b1).2).students =
      db.students ++ [⟨db.next_student_id, n1, r1, d1, p1, b1, ""⟩] ∧
    (register_student ((register_student db n1 r1 d1 p1 b1).2)
        n2 r1 d2 p2 b2).1 = RegisterResult.duplicateRegNo ∧
    (register_student ((register_student db n1 r1 d1 p1 b1).2)
        n2 r1 d2 p2 b2).2 = (register_student db n1 r1 d1 p1 b1).2 := by
  have h1 := register_student_fresh db n1 r1 d1 p1 b1 hv1 hr hb
  have hany : ((register_student db n1 r1 d1 p1 b1).2).students.any
      (fun s => s.reg_no == r1) = true := by
    rw [h1]
    simp
  have h2 := register_student_dup_reg_no
    ((register_student db n1 r1 d1 p1 b1).2) n2 r1 d2 p2 b2
    ⟨hv2.1, hv1.2.1, hv2.2.1, hv2.2.2⟩ hany
  exact ⟨by rw [h1], by rw [h1], by rw [h2], by rw [h2]⟩

/-- C6 witness: CS001 registered once, then a second registration reusing
CS001 with a distinct barcode is rejected and the store is unchanged. -/
theorem duplicate_reg_no_second_rejected_witness :
    (register_student init_database "A" "CS001"
        "Computer Science and Engineering" "+1" "AB12CD34").1 =
      RegisterResult.success studentA ∧
    (register_student dbA "B" "CS001" "Information Technology" "+2"
        "ZZ99YY88").1 = RegisterResult.duplicateRegNo ∧
    (register_student dbA "B" "CS001" "Information Technology" "+2"
        "ZZ99YY88").2 = dbA := by
  have h := duplicate_reg_no_second_rejected init_database
    "A" "CS001" "Computer Science and Engineering" "+1" "AB12CD34"
    "B" "Information Technology" "+2" "ZZ99YY88"
    (by decide) (by decide) (by decide) (by decide)
  exact ⟨h.1, h.2.2.1, h.2.2.2⟩

/-- C7 counterexample: a department absent from the fixed list is not
rejected; the registration succeeds and the row is persisted, so
department membership is not validated by the operation. -/
theorem register_department_unchecked_counterexample :
    ("Astrology" ∈ departments → False) ∧
    (register_student init_database "Eve" "R9" "Astrology" "+1"
        "ZZZZ9999").1 =
      RegisterResult.success ⟨1, "Eve", "R9", "Astrology", "+1",
        "ZZZZ9999", ""⟩ ∧
    ((register_student init_database "Eve" "R9" "Astrology" "+1"
        "ZZZZ9999").2).students =
      [⟨1, "Eve", "R9", "Astrology", "+1", "ZZZZ9999", ""⟩] := by
  decide

/-- C7 amended: the registration handler validates exactly that the four
fields are non-empty; a violating input is the validation outcome with
nothing persisted, and a never-empty department string is accepted whether
or not it belongs to the fixed list (membership is enforced only by the
form selectbox). -/
theorem register_validates_nonempty_fields_only (db : DB)
    (n r d p b : String) :
    ((register_student db n r d p b).1 = RegisterResult.validationError ↔
      ¬(n ≠ "" ∧ r ≠ "" ∧ d ≠ "" ∧ p ≠ "")) ∧
    ((register_student db n r d p b).1 = RegisterResult.validationError →
      (register_student db n r d p b).2 = db) := by
  by_cases h : n ≠ "" ∧ r ≠ "" ∧ d ≠ "" ∧ p ≠ ""
  · have h3 := register_result_of_valid db n r d p b h
    have hne : (register_student db n r d p b).1 ≠
        RegisterResult.validationError := by
      rcases h3 with h3 | h3 | h3 <;> rw [h3] <;> intro hc <;>
        exact RegisterResult.noConfusion hc
    exact ⟨⟨fun hres => absurd hres hne, fun hc => absurd h hc⟩,
           fun hres => absurd hres hne⟩
  · have h2 := register_student_invalid db n r d p b h
    rw [h2]
    exact ⟨⟨fun _ => h, fun _ => rfl⟩, fun _ => rfl⟩

/-- C7 witness: an empty name is rejected as a validation error and
persists nothing. -/
theorem register_validates_nonempty_fields_only_witness :
    (register_student init_database "" "R1" "Civil Engineering" "+1"
        "B1B1B1B1").1 = RegisterResult.validationError ∧
    (register_student init_database "" "R1" "Civil Engineering" "+1"
        "B1B1B1B1").2 = init_database :=
  ⟨(register_validates_nonempty_fields_only init_database ""
      "R1" "Civil Engineering" "+1" "B1B1B1B1").1.mpr (by simp),
   (register_validates_nonempty_fields_only init_database ""
      "R1" "Civil Engineering" "+1" "B1B1B1B1").2
     ((register_validates_nonempty_fields_only init_database ""
        "R1" "Civil Engineering" "+1" "B1B1B1B1").1.mpr (by simp))⟩

/-- C4 counterexample: a barcode collision during registration is not
retried; the insert fails and the generic database error is surfaced to
the caller, the store left unchanged. -/
theorem barcode_collision_surfaced_counterexample :
    (register_student dbA "B" "CS002" "Information Technology" "+2"
        "AB12CD34").1 = RegisterResult.databaseError ∧
    (register_student dbA "B" "CS002" "Information Technology" "+2"
        "AB12CD34").2 = dbA := by
  decide

/-- C4 amended: the implementation performs a single insert attempt with
the one generated identifier; on a barcode collision the failure is
surfaced to the caller as the generic database error with nothing written,
while the duplicate-key outcome is produced exactly for a duplicate
registration number. -/
theorem barcode_collision_error_surfaced (db : DB) (n r d p b : String)
    (hv : n ≠ "" ∧ r ≠ "" ∧ d ≠ "" ∧ p ≠ "") :
    (db.students.any (fun s => s.reg_no == r) = false →
     db.students.any (fun s => s.barcode == b) = true →
     (register_student db n r d p b).1 = RegisterResult.databaseError ∧
     (register_student db n r d p b).2 = db) ∧
    (db.students.any (fun s => s.reg_no == r) = true →
     (register_student db n r d p b).1 = RegisterResult.duplicateRegNo ∧
     (register_student db n r d p b).2 = db) := by
  constructor
  · intro hr hb
    have h := register_student_barcode_dup db n r d p b hv hr hb
    exact ⟨by rw [h], by rw [h]⟩
  · intro hr
    have h := register_student_dup_reg_no db n r d p b hv hr
    exact ⟨by rw [h], by rw [h]⟩

/-- C4 amended witness: a second registration reusing the existing barcode
with a fresh registration number yields the database error, and one
reusing the registration number yields the duplicate-key outcome. -/
theorem barcode_collision_error_surfaced_witness :
    (register_student dbA "C" "CS003" "Information Technology" "+3"
        "AB12CD34").1 = RegisterResult.databaseError ∧
    (register_student dbA "C" "CS003" "Information Technology" "+3"
        "AB12CD34").2 = dbA ∧
    (register_student dbA "C" "CS001" "Information Technology" "+3"
        "FFFF0000").1 = RegisterResult.duplicateRegNo := by
  have h1 := (barcode_collision_error_surfaced dbA "C" "CS003"
    "Information Technology" "+3" "AB12CD34" (by decide)).1
    (by decide) (by decide)
  have h2 := (barcode_collision_error_surfaced dbA "C" "CS001"
    "Information Technology" "+3" "FFFF0000" (by decide)).2 (by decide)
  exact ⟨h1.1, h1.2, h2.1⟩

/-- The three status filters of a row list partition its length. -/
theorem status_filter_partition (l : List (Student × AttendanceRecord)) :
    (l.filter (fun p => p.2.status == Status.present)).length +
    (l.filter (fun p => p.2.status == Status.late)).length +
    (l.filter (fun p => p.2.status == Status.absent)).length = l.length := by
  induction l with
  | nil => rfl
  | cons hd tl ih =>
    cases h : hd.2.status <;>
      simp only [List.filter_cons, h, List.length_cons] <;>
      simp <;>
      omega

/-- C8: for every date range and optional department filter, the summary
counts partition the total exactly. -/
theorem summary_counts_partition (db : DB) (start_date end_date : String)
    (department_filter : Option String) :
    (summary db start_date end_date department_filter).present_count +
    (summary db start_date end_date department_filter).late_count +
    (summary db start_date end_date department_filter).absent_count =
    (summary db start_date end_date department_filter).total_records := by
  unfold summary
  dsimp only
  exact status_filter_partition _

/-- C9: the per-student statistics include every registered student; the
displayed total is the true record count (0 for a student with no rows,
never replaced by 1), a student with no rows has rate 0, and a student
with rows has rate (present + late) / total * 100. -/
theorem per_student_stats_props (db : DB) (s : Student)
    (hs : s ∈ db.students) :
    statsFor db s ∈ all_students db ∧
    (statsFor db s).total_attendance =
      (db.attendance.filter (fun a => a.student_id == s.id)).length ∧
    ((db.attendance.filter (fun a => a.student_id == s.id)).length = 0 →
      (statsFor db s).total_attendance = 0 ∧
      (statsFor db s).attendance_rate = 0 ∧
      displayed_rate (statsFor db s) = 0) ∧
    (0 < (statsFor db s).total_attendance →
      (statsFor db s).attendance_rate =
        (((statsFor db s).present_count : ℚ) +
          ((statsFor db s).late_count : ℚ)) /
          ((statsFor db s).total_attendance : ℚ) * 100) := by
  have hrate : (statsFor db s).attendance_rate =
      (((statsFor db s).present_count : ℚ) +
        ((statsFor db s).late_count : ℚ)) /
        (if (statsFor db s).total_attendance = 0 then 1
         else ((statsFor db s).total_attendance : ℚ)) * 100 := rfl
  refine ⟨List.mem_map_of_mem _ (List.mem_mergeSort.mpr hs), rfl, ?_, ?_⟩
  · intro h0
    have hrecs : db.attendance.filter (fun a => a.student_id == s.id) = [] :=
      List.length_eq_zero.mp h0
    have htot : (statsFor db s).total_attendance = 0 := h0
    have hp : (statsFor db s).present_count = 0 := by
      show ((db.attendance.filter (fun a => a.student_id == s.id)).filter
        (fun a => a.status == Status.present)).length = 0
      rw [hrecs]
      rfl
    have hl : (statsFor db s).late_count = 0 := by
      show ((db.attendance.filter (fun a => a.student_id == s.id)).filter
        (fun a => a.status == Status.late)).length = 0
      rw [hrecs]
      rfl
    refine ⟨htot, ?_, ?_⟩
    · rw [hrate, hp, hl, htot]
      norm_num
    · unfold displayed_rate
      rw [htot, hrate, hp, hl, htot]
      norm_num
  · intro hpos
    rw [hrate, if_neg (by omega)]

/-- Example store extending dbA by one recorded check-in, giving studentA
one present row. -/
def dbA1 : DB :=
  (record_checkin dbA "AB12CD34" ⟨"2024-03-01", "08:30:00", 8⟩).2

/-- C9 witness: in dbA the student has zero rows, total 0 and rate 0; in
dbA1 the student has one row and the rate follows the formula. -/
theorem per_student_stats_props_witness :
    statsFor dbA studentA ∈ all_students dbA ∧
    (statsFor dbA studentA).total_attendance = 0 ∧
    (statsFor dbA studentA).attendance_rate = 0 ∧
    displayed_rate (statsFor dbA studentA) = 0 ∧
    (statsFor dbA1 studentA).attendance_rate =
      (((statsFor dbA1 studentA).present_count : ℚ) +
        ((statsFor dbA1 studentA).late_count : ℚ)) /
        ((statsFor dbA1 studentA).total_attendance : ℚ) * 100 := by
  have h0 := per_student_stats_props dbA studentA (by decide)
  have h1 := per_student_stats_props dbA1 studentA (by decide)
  exact ⟨h0.1, (h0.2.2.1 (by decide)).1, (h0.2.2.1 (by decide)).2.1,
         (h0.2.2.1 (by decide)).2.2, h1.2.2.2 (by decide)⟩

end AttendanceSystem
